import Mathlib

/-!
Shallow embedding of the GC-Load-Balancer core (Go) in Lean 4.

Modelling conventions:
* Go int / int64 fields are modelled as Lean Int; Go float64 arithmetic is
  modelled as exact rational arithmetic over Rat.
* Go float-to-int conversions (int(x), int64(x)) truncate toward zero; this
  is modelled by truncQ below.
* Timestamps (time.Time) are modelled as integer milliseconds since an
  arbitrary epoch; time.Now() becomes an explicit parameter named now.
* Random draws (rand.Int63n, rand.Intn) become explicit parameters that
  range over the same interval as the Go expression.
* Mutex locking, sleeps and goroutines are dropped; stateful methods become
  state-passing functions on the Server record, evaluated sequentially.
-/

namespace GCLB

/-- Truncation toward zero of a rational, as performed by the Go
conversions int(x) and int64(x) on float64 values. -/
def truncQ (q : ℚ) : ℤ :=
  if q < 0 then -⌊-q⌋ else ⌊q⌋

/-- GCSnapshot from Structs.go: a point-in-time GC and memory state. -/
structure GCSnapshot where
  Timestamp : ℤ
  YoungGenUsed : ℤ
  OldGenUsed : ℤ
  YoungGenMax : ℤ
  OldGenMax : ℤ
  TotalMemUsed : ℤ
  TotalMemMax : ℤ
  GCCount : ℤ
  LastMaGCTime : ℤ
  MaGCDuration : ℤ
  IsCollectingGC : Bool
  deriving DecidableEq

/-- MaGCForecast from Structs.go: a predicted Major GC event. -/
structure MaGCForecast where
  PredictedTime : ℤ
  Confidence : ℚ
  YoungGenThreshold : ℤ
  TimeToMaGC : ℤ
  ForecastCreatedAt : ℤ
  deriving DecidableEq

/-- LoadBalancingPolicy from Structs.go. -/
structure LoadBalancingPolicy where
  Algorithm : String
  GCAware : Bool
  MaGCThreshold : ℤ
  HistoryWindowSize : ℤ
  deriving DecidableEq

/-- The evaluation-criteria map of a ProgramFamily
(map of string to interface value in the Go source).  The Go code reads the
keys min_samples, max_magc_duration and min_magc_duration with a type
assertion whose second result tells whether the key is present; absent keys
are modelled with Option. -/
structure EvalCriteria where
  minSamples : ℤ
  maxMaGCDuration : Option ℤ
  minMaGCDuration : Option ℤ
  deriving DecidableEq

/-- ProgramFamily from Structs.go. -/
structure ProgramFamily where
  ID : String
  Name : String
  EvaluationCriteria : EvalCriteria
  Policy : LoadBalancingPolicy
  ForecastWindowSize : ℕ
  MaGCThreshold : ℤ
  deriving DecidableEq

/-- Server from Structs.go (the fields read or written by the embedded
operations; the channels and back pointers are out of scope). -/
structure Server where
  ID : ℤ
  TaskStorage : List String
  isCollectingGCTasks : Bool
  usedMemory : ℤ
  memLimit : ℤ
  gcPercentage : ℚ
  GCHistory : List GCSnapshot
  CurrentFamily : Option ProgramFamily
  LastMaGCForecast : Option MaGCForecast
  YoungGenUsed : ℤ
  OldGenUsed : ℤ
  YoungGenMax : ℤ
  OldGenMax : ℤ
  GCCount : ℤ
  LastMaGCTime : ℤ
  MaGCDuration : ℤ
  Weights : ℤ
  deriving DecidableEq

/-- calculateGCDuration from the Server implementation: base duration
10000 + int64(memoryUsage*2500), a random variation of up to plus or minus
20 percent of the base, clipped to the interval from 100 to 5000.
rnd models the draw rand.Int63n(variation*2), so 0 ≤ rnd < 2*variation. -/
def calculateGCDuration (usedMemory memLimit : ℤ) (rnd : ℤ) : ℤ :=
  let memoryUsage : ℚ := (usedMemory : ℚ) / (memLimit : ℚ)
  let baseDuration : ℤ := 10000 + truncQ (memoryUsage * 2500)
  let variation : ℤ := truncQ ((baseDuration : ℚ) * (2 / 10))
  let randomVariation : ℤ := rnd - variation
  let duration := baseDuration + randomVariation
  let duration := if duration < 100 then 100 else duration
  let duration := if duration > 5000 then 5000 else duration
  duration

/-- The base component of calculateGCDuration, exposed for stating bounds. -/
def gcBaseDuration (usedMemory memLimit : ℤ) : ℤ :=
  10000 + truncQ ((usedMemory : ℚ) / (memLimit : ℚ) * 2500)

/-- The variation bound of calculateGCDuration, exposed for stating the
range of the random draw. -/
def gcVariation (usedMemory memLimit : ℤ) : ℤ :=
  truncQ ((gcBaseDuration usedMemory memLimit : ℚ) * (2 / 10))

/-- CollectGCTasks from the Server implementation.  If a collection is
already in flight the call returns immediately without touching the state;
otherwise it sleeps for calculateGCDuration milliseconds (the sleep is the
recorded MaGC duration), then records duration, end time and count and
zeroes the heap accounting and the task list.  rnd is the random draw of
calculateGCDuration and endTime the value of time.Now() when the sleep
ends. -/
def CollectGCTasks (s : Server) (rnd : ℤ) (endTime : ℤ) : Server :=
  if s.isCollectingGCTasks then s
  else
    let gcDuration := calculateGCDuration s.usedMemory s.memLimit rnd
    { s with
      isCollectingGCTasks := false
      MaGCDuration := gcDuration
      LastMaGCTime := endTime
      GCCount := s.GCCount + 1
      TaskStorage := []
      usedMemory := 0
      YoungGenUsed := 0
      OldGenUsed := 0 }

/-- CanHandleTaskSize from the Server implementation: the capacity check
with its deliberate side effect.  When usedMemory + taskSize exceeds
memLimit it synchronously runs CollectGCTasks and returns false together
with the post-GC state; otherwise it returns true with the state
unchanged. -/
def CanHandleTaskSize (s : Server) (taskSize : ℤ) (rnd endTime : ℤ) :
    Bool × Server :=
  if s.usedMemory + taskSize > s.memLimit then
    (false, CollectGCTasks s rnd endTime)
  else
    (true, s)

/-- IsAvailable from the Server implementation. -/
def IsAvailable (s : Server) : Bool :=
  !s.isCollectingGCTasks

/-- The pure boolean content of the capacity check, used by the load
balancer scans (one probe per candidate per selection pass). -/
def canHandleCheck (s : Server) (taskSize : ℤ) : Bool :=
  !(decide (s.usedMemory + taskSize > s.memLimit))

/-- handleTask from the Server implementation (the heap accounting and
task record; the SHA-256 payload is out of scope).  taskId models the
randomly generated task identifier. -/
def handleTask (s : Server) (input : String) (taskId : String) : Server :=
  let taskSize : ℤ := input.length
  let youngGenAllocation : ℤ := truncQ ((taskSize : ℚ) * (8 / 10))
  let oldGenAllocation : ℤ := taskSize - youngGenAllocation
  let young := s.YoungGenUsed + youngGenAllocation
  let old := s.OldGenUsed + oldGenAllocation
  let promoted := if young > s.YoungGenMax / 2 then young / 4 else 0
  let young := young - promoted
  let old := old + promoted
  let young := if young > s.YoungGenMax then s.YoungGenMax else young
  let old := if old > s.OldGenMax then s.OldGenMax else old
  { s with
    usedMemory := s.usedMemory + taskSize
    YoungGenUsed := young
    OldGenUsed := old
    TaskStorage := s.TaskStorage ++ [taskId] }

/-- collectGCSnapshot from the TRINI extension: append the current state
to the bounded history ring (capacity 100, FIFO eviction). -/
def collectGCSnapshot (s : Server) (now : ℤ) : Server :=
  let snapshot : GCSnapshot :=
    { Timestamp := now
      YoungGenUsed := s.YoungGenUsed
      OldGenUsed := s.OldGenUsed
      YoungGenMax := s.YoungGenMax
      OldGenMax := s.OldGenMax
      TotalMemUsed := s.usedMemory
      TotalMemMax := s.memLimit
      GCCount := s.GCCount
      LastMaGCTime := s.LastMaGCTime
      MaGCDuration := s.MaGCDuration
      IsCollectingGC := s.isCollectingGCTasks }
  let hist := s.GCHistory ++ [snapshot]
  let hist := if hist.length > 100 then hist.drop 1 else hist
  { s with GCHistory := hist }

/-- IsMaGCPredicted from the TRINI extension: true iff a forecast exists,
is at most 30 seconds old, and predicts a MaGC between 0 and thresholdMs
milliseconds from now. -/
def IsMaGCPredicted (s : Server) (thresholdMs : ℤ) (now : ℤ) : Bool :=
  match s.LastMaGCForecast with
  | none => false
  | some f =>
    if now - f.ForecastCreatedAt > 30000 then false
    else
      let timeToMaGC := f.PredictedTime - now
      decide (timeToMaGC ≥ 0) && decide (timeToMaGC ≤ thresholdMs)

/-- forecastYoungGenThreshold from the TRINI extension: least-squares fit
of YoungGenUsed against OldGenUsed over the window, evaluated at 90
percent of OldGenMax, clamped at zero and truncated to int.  Returns 0
when the window is too small or the normal-equation denominator is
numerically zero. -/
def forecastYoungGenThreshold (OldGenMax : ℤ) (history : List GCSnapshot) : ℤ :=
  if history.length < 3 then 0
  else
    let n : ℚ := history.length
    let sumX : ℚ := (history.map (fun sn => (sn.OldGenUsed : ℚ))).sum
    let sumY : ℚ := (history.map (fun sn => (sn.YoungGenUsed : ℚ))).sum
    let sumXY : ℚ :=
      (history.map (fun sn => (sn.OldGenUsed : ℚ) * (sn.YoungGenUsed : ℚ))).sum
    let sumX2 : ℚ :=
      (history.map (fun sn => (sn.OldGenUsed : ℚ) * (sn.OldGenUsed : ℚ))).sum
    let denominator := n * sumX2 - sumX * sumX
    if |denominator| < 1 / 10000000000 then 0
    else
      let a := (n * sumXY - sumX * sumY) / denominator
      let b := (sumY - a * sumX) / n
      let oldGenThreshold : ℚ := (OldGenMax : ℚ) * (9 / 10)
      let youngGenThreshold := a * oldGenThreshold + b
      let youngGenThreshold := if youngGenThreshold < 0 then 0 else youngGenThreshold
      truncQ youngGenThreshold

/-- forecastTimeToMaGC from the TRINI extension: least-squares fit of the
millisecond offset from the first snapshot against YoungGenUsed, evaluated
at the young-generation threshold, minus the elapsed time, truncated to
int64 and clamped at zero.  Returns 0 when the window is too small or the
denominator is numerically zero. -/
def forecastTimeToMaGC (history : List GCSnapshot) (youngGenThreshold : ℤ)
    (now : ℤ) : ℤ :=
  match history with
  | [] => 0
  | base :: _ =>
    if history.length < 3 then 0
    else
      let baseTime := base.Timestamp
      let n : ℚ := history.length
      let sumX : ℚ := (history.map (fun sn => (sn.YoungGenUsed : ℚ))).sum
      let sumY : ℚ := (history.map (fun sn => ((sn.Timestamp - baseTime : ℤ) : ℚ))).sum
      let sumXY : ℚ :=
        (history.map (fun sn =>
          (sn.YoungGenUsed : ℚ) * ((sn.Timestamp - baseTime : ℤ) : ℚ))).sum
      let sumX2 : ℚ :=
        (history.map (fun sn => (sn.YoungGenUsed : ℚ) * (sn.YoungGenUsed : ℚ))).sum
      let denominator := n * sumX2 - sumX * sumX
      if |denominator| < 1 / 10000000000 then 0
      else
        let a := (n * sumXY - sumX * sumY) / denominator
        let b := (sumY - a * sumX) / n
        let predictedTime := a * (youngGenThreshold : ℚ) + b
        let currentTime : ℚ := ((now - baseTime : ℤ) : ℚ)
        let timeToMaGC := truncQ (predictedTime - currentTime)
        if timeToMaGC < 0 then 0 else timeToMaGC

/-- calculateForecastConfidence from the TRINI extension:
min(|W|/20, 1), halved when the newest snapshot is older than 30
seconds; 0 below three snapshots. -/
def calculateForecastConfidence (history : List GCSnapshot) (now : ℤ) : ℚ :=
  if history.length < 3 then 0
  else
    match history.getLast? with
    | none => 0
    | some latestSnapshot =>
      let baseConfidence : ℚ := min ((history.length : ℚ) / 20) 1
      if now - latestSnapshot.Timestamp > 30000 then baseConfidence * (1 / 2)
      else baseConfidence

/-- generateMaGCForecast from the TRINI extension (the MaGA algorithm).
Requires at least five snapshots and a current family; takes the most
recent ForecastWindowSize snapshots; aborts (returns none) when the
young-generation threshold or the time to MaGC comes out nonpositive. -/
def generateMaGCForecast (s : Server) (history : List GCSnapshot)
    (now : ℤ) : Option MaGCForecast :=
  if history.length < 5 then none
  else
    match s.CurrentFamily with
    | none => none
    | some family =>
      let windowSize :=
        if family.ForecastWindowSize > history.length then history.length
        else family.ForecastWindowSize
      let recentHistory := history.drop (history.length - windowSize)
      let youngGenThreshold := forecastYoungGenThreshold s.OldGenMax recentHistory
      if youngGenThreshold ≤ 0 then none
      else
        let timeToMaGC := forecastTimeToMaGC recentHistory youngGenThreshold now
        if timeToMaGC ≤ 0 then none
        else
          let confidence := calculateForecastConfidence recentHistory now
          some
            { PredictedTime := now + timeToMaGC
              Confidence := confidence
              YoungGenThreshold := youngGenThreshold
              TimeToMaGC := timeToMaGC
              ForecastCreatedAt := now }

/-- The short-magc program family as initialized by the TRINI constructor. -/
def shortMaGCFamily : ProgramFamily :=
  { ID := "short-magc"
    Name := "Short MaGC Duration"
    EvaluationCriteria :=
      { minSamples := 5, maxMaGCDuration := some 500, minMaGCDuration := none }
    Policy :=
      { Algorithm := "RR", GCAware := true, MaGCThreshold := 1000
        HistoryWindowSize := 20 }
    ForecastWindowSize := 15
    MaGCThreshold := 1000 }

/-- The medium-magc program family as initialized by the TRINI constructor. -/
def mediumMaGCFamily : ProgramFamily :=
  { ID := "medium-magc"
    Name := "Medium MaGC Duration"
    EvaluationCriteria :=
      { minSamples := 5, maxMaGCDuration := some 2000, minMaGCDuration := some 500 }
    Policy :=
      { Algorithm := "WRR", GCAware := true, MaGCThreshold := 3000
        HistoryWindowSize := 30 }
    ForecastWindowSize := 25
    MaGCThreshold := 3000 }

/-- The long-magc program family as initialized by the TRINI constructor. -/
def longMaGCFamily : ProgramFamily :=
  { ID := "long-magc"
    Name := "Long MaGC Duration"
    EvaluationCriteria :=
      { minSamples := 3, maxMaGCDuration := none, minMaGCDuration := some 2000 }
    Policy :=
      { Algorithm := "WRR", GCAware := true, MaGCThreshold := 5000
        HistoryWindowSize := 40 }
    ForecastWindowSize := 35
    MaGCThreshold := 5000 }

/-- The default program family as initialized by the TRINI constructor:
its criteria carry only min_samples = 0, no duration bounds. -/
def defaultFamily : ProgramFamily :=
  { ID := "default"
    Name := "Default"
    EvaluationCriteria :=
      { minSamples := 0, maxMaGCDuration := none, minMaGCDuration := none }
    Policy :=
      { Algorithm := "RR", GCAware := false, MaGCThreshold := 2000
        HistoryWindowSize := 10 }
    ForecastWindowSize := 10
    MaGCThreshold := 2000 }

/-- The family registry in one possible iteration order (the Go map is
unordered; the claims settled here do not depend on the order). -/
def allFamilies : List ProgramFamily :=
  [shortMaGCFamily, mediumMaGCFamily, longMaGCFamily, defaultFamily]

/-- The scan shared by evaluateCurrentFamily and findBestFamily: walk the
history from the newest snapshot backwards collecting MaGC durations
greater than zero, stopping after ten. -/
def recentMaGCDurations (history : List GCSnapshot) : List ℤ :=
  ((history.reverse.filter (fun sn => decide (sn.MaGCDuration > 0))).take 10).map
    (fun sn => sn.MaGCDuration)

/-- evaluateCurrentFamily from the TRINI extension: whether the current
family still suits the server.  Note that absent criteria keys (the Go
type assertion failing) skip the corresponding bound check. -/
def evaluateCurrentFamily (history : List GCSnapshot)
    (family : Option ProgramFamily) : Bool :=
  match family with
  | none => false
  | some fam =>
    if (history.length : ℤ) < fam.EvaluationCriteria.minSamples then
      decide (history.length = 0)
    else
      let recentDurations := recentMaGCDurations history
      if recentDurations.length = 0 then true
      else
        let avgDuration := recentDurations.sum / (recentDurations.length : ℤ)
        let okMax :=
          match fam.EvaluationCriteria.maxMaGCDuration with
          | some maxDuration => !(decide (avgDuration > maxDuration))
          | none => true
        let okMin :=
          match fam.EvaluationCriteria.minMaGCDuration with
          | some minDuration => !(decide (avgDuration < minDuration))
          | none => true
        okMax && okMin

/-- findBestFamily from the TRINI extension: the first non-default family
in registry order whose sample and duration criteria the recent average
satisfies, else the default family. -/
def findBestFamily (history : List GCSnapshot) (families : List ProgramFamily)
    (defaultFam : ProgramFamily) : ProgramFamily :=
  let recentDurations := recentMaGCDurations history
  if recentDurations.length = 0 then defaultFam
  else
    let avgDuration := recentDurations.sum / (recentDurations.length : ℤ)
    let found := families.find? (fun family =>
      if family.ID == "default" then false
      else if (recentDurations.length : ℤ) < family.EvaluationCriteria.minSamples then
        false
      else
        let okMax :=
          match family.EvaluationCriteria.maxMaGCDuration with
          | some maxDuration => !(decide (avgDuration > maxDuration))
          | none => true
        let okMin :=
          match family.EvaluationCriteria.minMaGCDuration with
          | some minDuration => !(decide (avgDuration < minDuration))
          | none => true
        okMax && okMin)
    found.getD defaultFam

/-- The family-classification part of analyzeAndAdapt from the TRINI
extension: below three snapshots nothing happens; when the current family
still evaluates as suitable nothing happens; otherwise the best family is
installed when its ID differs.  (When CurrentFamily is nil the Go source
dereferences a nil pointer on the comparison; servers initialized through
StartTRINI always carry a family, and that branch is modelled as a
no-op.) -/
def analyzeAndAdaptFamily (s : Server) (families : List ProgramFamily)
    (defaultFam : ProgramFamily) : Server :=
  let gcHistory := s.GCHistory
  if gcHistory.length < 3 then s
  else if evaluateCurrentFamily gcHistory s.CurrentFamily then s
  else
    let newFamily := findBestFamily gcHistory families defaultFam
    match s.CurrentFamily with
    | some currentFamily =>
      if newFamily.ID ≠ currentFamily.ID then
        { s with CurrentFamily := some newFamily }
      else s
    | none => s

/-- TRINI from Structs.go (the registry is modelled as a list because the
Go map iteration order is unspecified). -/
structure TRINI where
  ProgramFamilies : List ProgramFamily
  DefaultFamily : ProgramFamily
  IsActive : Bool
  deriving DecidableEq

/-- LoadBalancer from Structs.go. -/
structure LoadBalancer where
  Servers : List Server
  currentServerIndex : ℕ
  TRINI : Option GCLB.TRINI
  CurrentPolicy : LoadBalancingPolicy
  deriving DecidableEq

/-- The ring traversal shared by GetServerForTask and the GC-aware
selectors: for each i below the number of servers in order, examine the
server at position (start + i) mod N and select the first one satisfying
the predicate, returning its position and value. -/
def rrScan (servers : List Server) (start : ℕ) (p : Server → Bool) :
    Option (ℕ × Server) :=
  (List.range servers.length).findSome? (fun i =>
    let serverIndex := (start + i) % servers.length
    match servers[serverIndex]? with
    | some server => if p server then some (serverIndex, server) else none
    | none => none)

/-- GetServerForTask from LoadBalancer.go, additionally reporting the
selected index: plain round-robin over availability and capacity, cursor
advanced to (selectedIndex + 1) mod N on success, untouched on
exhaustion. -/
def GetServerForTaskIdx (lb : LoadBalancer) (taskSize : ℤ) :
    Option (ℕ × Server) × LoadBalancer :=
  match rrScan lb.Servers lb.currentServerIndex
      (fun server => IsAvailable server && canHandleCheck server taskSize) with
  | some (serverIndex, server) =>
    (some (serverIndex, server),
      { lb with currentServerIndex := (serverIndex + 1) % lb.Servers.length })
  | none => (none, lb)

/-- GetServerForTask from LoadBalancer.go (the selected server only). -/
def GetServerForTask (lb : LoadBalancer) (taskSize : ℤ) :
    Option Server × LoadBalancer :=
  let r := GetServerForTaskIdx lb taskSize
  (r.1.map Prod.snd, r.2)

/-- getCurrentMaGCThreshold from GCAwareLoadBalancer.go. -/
def getCurrentMaGCThreshold (lb : LoadBalancer) : ℤ :=
  match lb.TRINI with
  | none => 2000
  | some _ => lb.CurrentPolicy.MaGCThreshold

/-- GetServerGCRoundRobin from GCAwareLoadBalancer.go: with TRINI absent
or inactive fall back to plain round-robin; otherwise scan the ring
skipping servers that fail availability, capacity, or the GC guard
IsMaGCPredicted; on exhaustion escape into the plain fallback. -/
def GetServerGCRoundRobin (lb : LoadBalancer) (taskSize : ℤ) (now : ℤ) :
    Option Server × LoadBalancer :=
  match lb.TRINI with
  | none => GetServerForTask lb taskSize
  | some trini =>
    if !trini.IsActive then GetServerForTask lb taskSize
    else
      let threshold := getCurrentMaGCThreshold lb
      match rrScan lb.Servers lb.currentServerIndex (fun server =>
          IsAvailable server && canHandleCheck server taskSize &&
            !IsMaGCPredicted server threshold now) with
      | some (serverIndex, server) =>
        (some server,
          { lb with currentServerIndex := (serverIndex + 1) % lb.Servers.length })
      | none => GetServerForTask lb taskSize

/-- The sequence of indices selected by consecutive plain round-robin
dispatches (calls that select nothing contribute nothing). -/
def dispatchSeq (taskSize : ℤ) : LoadBalancer → ℕ → List ℕ
  | _, 0 => []
  | lb, m + 1 =>
    match GetServerForTaskIdx lb taskSize with
    | (some (i, _), lb1) => i :: dispatchSeq taskSize lb1 m
    | (none, lb1) => dispatchSeq taskSize lb1 m

lemma truncQ_of_nonneg {q : ℚ} (h : 0 ≤ q) : truncQ q = ⌊q⌋ := by
  unfold truncQ
  rw [if_neg (not_lt.2 h)]

lemma truncQ_nonneg {q : ℚ} (h : 0 ≤ q) : 0 ≤ truncQ q := by
  rw [truncQ_of_nonneg h]
  exact Int.floor_nonneg.2 h

lemma truncQ_cast_le {q : ℚ} (h : 0 ≤ q) : (truncQ q : ℚ) ≤ q := by
  rw [truncQ_of_nonneg h]
  exact Int.floor_le q

/-- Structural form of calculateGCDuration: the two sequential clips
amount to clamping base + rnd - variation into the interval
from 100 to 5000. -/
lemma calculateGCDuration_clip (usedMemory memLimit rnd : ℤ) :
    calculateGCDuration usedMemory memLimit rnd =
      min 5000 (max 100 (gcBaseDuration usedMemory memLimit + rnd -
        gcVariation usedMemory memLimit)) := by
  simp only [calculateGCDuration, gcBaseDuration, gcVariation]
  split_ifs <;> omega

lemma gcBaseDuration_ge (usedMemory memLimit : ℤ) (h0 : 0 ≤ usedMemory)
    (h2 : 0 < memLimit) : 10000 ≤ gcBaseDuration usedMemory memLimit := by
  unfold gcBaseDuration
  have hq : (0 : ℚ) ≤ (usedMemory : ℚ) / (memLimit : ℚ) * 2500 := by
    apply mul_nonneg _ (by norm_num)
    apply div_nonneg <;> [exact_mod_cast h0; exact_mod_cast h2.le]
  have := truncQ_nonneg hq
  omega

lemma gcVariation_le (usedMemory memLimit : ℤ) (h0 : 0 ≤ usedMemory)
    (h2 : 0 < memLimit) :
    5 * gcVariation usedMemory memLimit ≤ gcBaseDuration usedMemory memLimit := by
  have hb : (10000 : ℤ) ≤ gcBaseDuration usedMemory memLimit :=
    gcBaseDuration_ge usedMemory memLimit h0 h2
  unfold gcVariation
  have harg : (0 : ℚ) ≤ (gcBaseDuration usedMemory memLimit : ℚ) * (2 / 10) := by
    apply mul_nonneg _ (by norm_num)
    exact_mod_cast le_trans (by norm_num) hb
  have hle := truncQ_cast_le harg
  have : (5 : ℚ) * (truncQ ((gcBaseDuration usedMemory memLimit : ℚ) * (2 / 10)) : ℚ) ≤
      (gcBaseDuration usedMemory memLimit : ℚ) := by nlinarith
  exact_mod_cast this

/-- C5: for every worker state with 0 ≤ usedMemory ≤ memLimit and
memLimit > 0, calculateGCDuration returns the clip of base plus random
variation into the interval from 100 ms to 5000 ms, where the base is
10000 + the truncation of 2500 times the memory-usage fraction and the
variation is at most 20 percent of the base; and since the base is at
least 10000 while the ceiling is 5000, the returned duration is exactly
5000 ms for every such state and every random draw. -/
theorem C5_gcDuration_clipped (usedMemory memLimit rnd : ℤ)
    (h0 : 0 ≤ usedMemory) (h1 : usedMemory ≤ memLimit) (h2 : 0 < memLimit)
    (h3 : 0 ≤ rnd) (h4 : rnd < 2 * gcVariation usedMemory memLimit) :
    calculateGCDuration usedMemory memLimit rnd =
      min 5000 (max 100 (gcBaseDuration usedMemory memLimit + rnd -
        gcVariation usedMemory memLimit)) ∧
    calculateGCDuration usedMemory memLimit rnd = 5000 := by
  have hb := gcBaseDuration_ge usedMemory memLimit h0 h2
  have hv := gcVariation_le usedMemory memLimit h0 h2
  have hclip := calculateGCDuration_clip usedMemory memLimit rnd
  exact ⟨hclip, by omega⟩

/-- Witness for C5 at usedMemory 50, memLimit 100, rnd 0. -/
theorem C5_gcDuration_clipped_witness :
    (0 : ℤ) < 2 * gcVariation 50 100 ∧ calculateGCDuration 50 100 0 = 5000 := by
  have h4 : (0 : ℤ) < 2 * gcVariation 50 100 := by
    norm_num [gcVariation, gcBaseDuration, truncQ]
  exact ⟨h4, (C5_gcDuration_clipped 50 100 0 (by norm_num) (by norm_num)
    (by norm_num) (by norm_num) h4).2⟩

/-- C2: CanHandleTaskSize returns true iff usedMemory + taskSize fits in
memLimit, and whenever it returns false the returned state is exactly the
state after the synchronous CollectGCTasks call. -/
lemma canHandleTaskSize_pos (s : Server) (taskSize rnd endTime : ℤ)
    (h : s.usedMemory + taskSize ≤ s.memLimit) :
    CanHandleTaskSize s taskSize rnd endTime = (true, s) := by
  unfold CanHandleTaskSize
  rw [if_neg (by omega)]

lemma canHandleTaskSize_neg (s : Server) (taskSize rnd endTime : ℤ)
    (h : s.memLimit < s.usedMemory + taskSize) :
    CanHandleTaskSize s taskSize rnd endTime =
      (false, CollectGCTasks s rnd endTime) := by
  unfold CanHandleTaskSize
  rw [if_pos (by omega)]

theorem C2_canHandleTaskSize_spec (s : Server) (taskSize rnd endTime : ℤ) :
    ((CanHandleTaskSize s taskSize rnd endTime).1 = true ↔
      s.usedMemory + taskSize ≤ s.memLimit) ∧
    ((CanHandleTaskSize s taskSize rnd endTime).1 = false →
      (CanHandleTaskSize s taskSize rnd endTime).2 = CollectGCTasks s rnd endTime) := by
  rcases le_or_lt (s.usedMemory + taskSize) s.memLimit with h | h
  · rw [canHandleTaskSize_pos s taskSize rnd endTime h]
    refine ⟨by simpa using h, ?_⟩
    intro hf
    simp at hf
  · rw [canHandleTaskSize_neg s taskSize rnd endTime h]
    refine ⟨?_, fun _ => rfl⟩
    constructor
    · intro hf
      simp at hf
    · intro hle
      exact absurd hle (by omega)

/-- Witness server: not collecting, 8 of 10 memory units used. -/
def w0 : Server :=
  { ID := 1, TaskStorage := ["task-1"], isCollectingGCTasks := false
    usedMemory := 8, memLimit := 10, gcPercentage := 9 / 10
    GCHistory := [], CurrentFamily := none, LastMaGCForecast := none
    YoungGenUsed := 4, OldGenUsed := 4, YoungGenMax := 5, OldGenMax := 5
    GCCount := 2, LastMaGCTime := 0, MaGCDuration := 0, Weights := 1 }

/-- Witness for C2: at w0 a task of size 5 is rejected and the returned
state is the post-GC state. -/
theorem C2_canHandleTaskSize_spec_witness :
    (CanHandleTaskSize w0 5 0 0).1 = false ∧
    (CanHandleTaskSize w0 5 0 0).2 = CollectGCTasks w0 0 0 :=
  ⟨rfl, (C2_canHandleTaskSize_spec w0 5 0 0).2 rfl⟩

/-- C6: immediately after CollectGCTasks completes on a worker that was
not already collecting, all heap accounting is zero, the task list is
empty, the collecting flag is clear, GCCount has grown by exactly one, and
the MaGC duration and end time have been recorded. -/
theorem C6_collectGCTasks_reset (s : Server) (rnd endTime : ℤ)
    (h : s.isCollectingGCTasks = false) :
    (CollectGCTasks s rnd endTime).usedMemory = 0 ∧
    (CollectGCTasks s rnd endTime).YoungGenUsed = 0 ∧
    (CollectGCTasks s rnd endTime).OldGenUsed = 0 ∧
    (CollectGCTasks s rnd endTime).TaskStorage = [] ∧
    (CollectGCTasks s rnd endTime).isCollectingGCTasks = false ∧
    (CollectGCTasks s rnd endTime).GCCount = s.GCCount + 1 ∧
    (CollectGCTasks s rnd endTime).MaGCDuration =
      calculateGCDuration s.usedMemory s.memLimit rnd ∧
    (CollectGCTasks s rnd endTime).LastMaGCTime = endTime := by
  simp [CollectGCTasks, h]

/-- Witness for C6 at w0. -/
theorem C6_collectGCTasks_reset_witness :
    (CollectGCTasks w0 3000 7).usedMemory = 0 ∧
    (CollectGCTasks w0 3000 7).YoungGenUsed = 0 ∧
    (CollectGCTasks w0 3000 7).OldGenUsed = 0 ∧
    (CollectGCTasks w0 3000 7).TaskStorage = [] ∧
    (CollectGCTasks w0 3000 7).isCollectingGCTasks = false ∧
    (CollectGCTasks w0 3000 7).GCCount = w0.GCCount + 1 ∧
    (CollectGCTasks w0 3000 7).MaGCDuration =
      calculateGCDuration w0.usedMemory w0.memLimit 3000 ∧
    (CollectGCTasks w0 3000 7).LastMaGCTime = 7 :=
  C6_collectGCTasks_reset w0 3000 7 rfl

/-- A worker already inside a collection, with memory above the limit:
CollectGCTasks is a no-op on it. -/
def wBusy : Server :=
  { ID := 2, TaskStorage := ["task-9"], isCollectingGCTasks := true
    usedMemory := 8, memLimit := 10, gcPercentage := 9 / 10
    GCHistory := [], CurrentFamily := none, LastMaGCForecast := none
    YoungGenUsed := 4, OldGenUsed := 4, YoungGenMax := 5, OldGenMax := 5
    GCCount := 2, LastMaGCTime := 0, MaGCDuration := 0, Weights := 1 }

/-- Counterexample to C10 as stated: wBusy has memLimit > 0 and
CanHandleTaskSize returns false on a task of size 5, yet the post state
still has usedMemory 8 and the collecting flag set, because the
synchronous CollectGCTasks returns immediately when a collection is
already in flight; the immediately following call with size 5 ≤ memLimit
again returns false. -/
theorem C10_counterexample :
    wBusy.memLimit > 0 ∧
    (CanHandleTaskSize wBusy 5 0 0).1 = false ∧
    (CanHandleTaskSize wBusy 5 0 0).2.usedMemory = 8 ∧
    (CanHandleTaskSize wBusy 5 0 0).2.isCollectingGCTasks = true ∧
    (5 : ℤ) ≤ wBusy.memLimit ∧
    (CanHandleTaskSize (CanHandleTaskSize wBusy 5 0 0).2 5 0 0).1 = false := by
  refine ⟨by decide, rfl, rfl, rfl, by decide, rfl⟩

/-- C10 amended: for every worker state with memLimit > 0 that is NOT
already collecting, whenever CanHandleTaskSize returns false the post
state has usedMemory, YoungGenUsed and OldGenUsed all zero with the
collecting flag clear, and an immediately following CanHandleTaskSize
call with any size at most memLimit returns true. -/
theorem C10_amended (s : Server) (taskSize rnd endTime : ℤ)
    (hcol : s.isCollectingGCTasks = false) (hm : 0 < s.memLimit)
    (hfalse : (CanHandleTaskSize s taskSize rnd endTime).1 = false) :
    (CanHandleTaskSize s taskSize rnd endTime).2.usedMemory = 0 ∧
    (CanHandleTaskSize s taskSize rnd endTime).2.YoungGenUsed = 0 ∧
    (CanHandleTaskSize s taskSize rnd endTime).2.OldGenUsed = 0 ∧
    (CanHandleTaskSize s taskSize rnd endTime).2.isCollectingGCTasks = false ∧
    ∀ taskSize2 rnd2 endTime2 : ℤ, taskSize2 ≤ s.memLimit →
      (CanHandleTaskSize (CanHandleTaskSize s taskSize rnd endTime).2
        taskSize2 rnd2 endTime2).1 = true := by
  have hcond : s.memLimit < s.usedMemory + taskSize := by
    by_contra hno
    push_neg at hno
    rw [canHandleTaskSize_pos s taskSize rnd endTime hno] at hfalse
    simp at hfalse
  have hpost : (CanHandleTaskSize s taskSize rnd endTime).2 =
      CollectGCTasks s rnd endTime := by
    rw [canHandleTaskSize_neg s taskSize rnd endTime hcond]
  rw [hpost]
  have hreset := C6_collectGCTasks_reset s rnd endTime hcol
  refine ⟨hreset.1, hreset.2.1, hreset.2.2.1, hreset.2.2.2.2.1, ?_⟩
  intro taskSize2 rnd2 endTime2 hfit
  have hmem : (CollectGCTasks s rnd endTime).usedMemory = 0 := hreset.1
  have hlim : (CollectGCTasks s rnd endTime).memLimit = s.memLimit := by
    simp [CollectGCTasks, hcol]
  simp only [CanHandleTaskSize, hmem, hlim]
  rw [if_neg (by omega)]

/-- Witness for the amended C10 at w0 with task size 5 (rejected) and a
follow-up task of size 10. -/
theorem C10_amended_witness :
    (CanHandleTaskSize w0 5 0 0).1 = false ∧
    (CanHandleTaskSize w0 5 0 0).2.usedMemory = 0 ∧
    (CanHandleTaskSize (CanHandleTaskSize w0 5 0 0).2 10 0 0).1 = true := by
  have h := C10_amended w0 5 0 0 rfl (by decide) rfl
  exact ⟨rfl, h.1, h.2.2.2.2 10 0 0 (by decide)⟩

/-- Invariant P1 of the spec: both generations hold a nonnegative amount
bounded by their maxima. -/
def heapInvariant (s : Server) : Prop :=
  0 ≤ s.YoungGenUsed ∧ s.YoungGenUsed ≤ s.YoungGenMax ∧
  0 ≤ s.OldGenUsed ∧ s.OldGenUsed ≤ s.OldGenMax

instance (s : Server) : Decidable (heapInvariant s) := by
  unfold heapInvariant
  infer_instance

/-- C7: task admission (handleTask, which adds the truncation of 0.8
times the task size to the young generation and the rest to the old
generation, promotes a quarter of the young generation when it exceeds
half its maximum, and saturates both generations at their maxima)
preserves invariant P1, as do the MaGC reset (CollectGCTasks) and
snapshot collection (collectGCSnapshot). -/
theorem C7_heap_invariant (s : Server) (input taskId : String)
    (rnd endTime now : ℤ) (hinv : heapInvariant s) :
    heapInvariant (handleTask s input taskId) ∧
    heapInvariant (CollectGCTasks s rnd endTime) ∧
    heapInvariant (collectGCSnapshot s now) := by
  obtain ⟨hY0, hY1, hO0, hO1⟩ := hinv
  have hn : (0 : ℤ) ≤ (input.length : ℤ) := Int.natCast_nonneg _
  have harg : (0 : ℚ) ≤ ((input.length : ℤ) : ℚ) * (8 / 10) := by positivity
  have hyinc0 : 0 ≤ truncQ (((input.length : ℤ) : ℚ) * (8 / 10)) :=
    truncQ_nonneg harg
  have hyinc1 : truncQ (((input.length : ℤ) : ℚ) * (8 / 10)) ≤ (input.length : ℤ) := by
    have hle := truncQ_cast_le harg
    have hle2 : ((input.length : ℤ) : ℚ) * (8 / 10) ≤ ((input.length : ℤ) : ℚ) := by
      nlinarith [show ((0 : ℚ)) ≤ ((input.length : ℤ) : ℚ) by exact_mod_cast hn]
    exact_mod_cast le_trans hle hle2
  refine ⟨?_, ?_, ?_⟩
  · unfold heapInvariant handleTask
    simp only
    split_ifs <;> omega
  · unfold heapInvariant CollectGCTasks
    split_ifs
    · exact ⟨hY0, hY1, hO0, hO1⟩
    · exact ⟨le_refl 0, show (0 : ℤ) ≤ s.YoungGenMax by omega, le_refl 0,
        show (0 : ℤ) ≤ s.OldGenMax by omega⟩
  · unfold heapInvariant collectGCSnapshot
    simp only
    exact ⟨hY0, hY1, hO0, hO1⟩

/-- Witness for C7 at w0 with a three-character task. -/
theorem C7_heap_invariant_witness :
    heapInvariant w0 ∧
    heapInvariant (handleTask w0 "abc" "task-7") ∧
    heapInvariant (CollectGCTasks w0 500 9) ∧
    heapInvariant (collectGCSnapshot w0 11) := by
  have hw : heapInvariant w0 := by decide
  exact ⟨hw, C7_heap_invariant w0 "abc" "task-7" 500 9 11 hw⟩

/-- C9: for windows of at least three snapshots the confidence equals
min(1, |W|/20), multiplied by one half exactly when the newest snapshot is
older than 30 seconds; hence it is monotone nondecreasing in the window
length, equals 1 for 20 fresh snapshots, and halves across the freshness
boundary. -/
theorem C9_confidence_spec :
    (∀ (history : List GCSnapshot) (now : ℤ) (last : GCSnapshot),
      3 ≤ history.length → history.getLast? = some last →
      calculateForecastConfidence history now =
        (if 30000 < now - last.Timestamp then (1 : ℚ) / 2 else 1) *
          min 1 ((history.length : ℚ) / 20)) ∧
    (∀ (h1 h2 : List GCSnapshot) (now : ℤ) (l1 l2 : GCSnapshot),
      3 ≤ h1.length → h1.length ≤ h2.length →
      h1.getLast? = some l1 → h2.getLast? = some l2 →
      now - l1.Timestamp ≤ 30000 → now - l2.Timestamp ≤ 30000 →
      calculateForecastConfidence h1 now ≤ calculateForecastConfidence h2 now) ∧
    (∀ (history : List GCSnapshot) (now : ℤ) (last : GCSnapshot),
      history.length = 20 → history.getLast? = some last →
      now - last.Timestamp ≤ 30000 → calculateForecastConfidence history now = 1) ∧
    (∀ (history : List GCSnapshot) (now1 now2 : ℤ) (last : GCSnapshot),
      3 ≤ history.length → history.getLast? = some last →
      now1 - last.Timestamp ≤ 30000 → 30000 < now2 - last.Timestamp →
      calculateForecastConfidence history now2 =
        (1 / 2) * calculateForecastConfidence history now1) := by
  have hbase : ∀ (history : List GCSnapshot) (now : ℤ) (last : GCSnapshot),
      3 ≤ history.length → history.getLast? = some last →
      calculateForecastConfidence history now =
        (if 30000 < now - last.Timestamp then (1 : ℚ) / 2 else 1) *
          min 1 ((history.length : ℚ) / 20) := by
    intro history now last h3 hlast
    unfold calculateForecastConfidence
    rw [if_neg (by omega), hlast]
    simp only [gt_iff_lt]
    rw [min_comm ((history.length : ℚ) / 20) 1]
    split_ifs with hstale
    · ring
    · ring
  refine ⟨hbase, ?_, ?_, ?_⟩
  · intro h1 h2 now l1 l2 h3 hlen hl1 hl2 hf1 hf2
    rw [hbase h1 now l1 h3 hl1, hbase h2 now l2 (le_trans h3 hlen) hl2,
      if_neg (by omega), if_neg (by omega), one_mul, one_mul]
    have : ((h1.length : ℚ) / 20) ≤ ((h2.length : ℚ) / 20) := by
      apply div_le_div_of_nonneg_right ?_ (by norm_num)
      exact_mod_cast hlen
    exact min_le_min le_rfl this
  · intro history now last h20 hlast hfresh
    rw [hbase history now last (by omega) hlast, if_neg (by omega), one_mul, h20]
    norm_num
  · intro history now1 now2 last h3 hlast hfresh hstale
    rw [hbase history now2 last h3 hlast, hbase history now1 last h3 hlast,
      if_pos (by omega), if_neg (by omega)]
    ring

/-- A three-snapshot window whose newest snapshot has timestamp 0, used
as the concrete confidence witness. -/
def confSnap (t : ℤ) : GCSnapshot :=
  { Timestamp := t, YoungGenUsed := 1, OldGenUsed := 1, YoungGenMax := 5
    OldGenMax := 5, TotalMemUsed := 2, TotalMemMax := 10, GCCount := 0
    LastMaGCTime := 0, MaGCDuration := 0, IsCollectingGC := false }

/-- Witness for C9: a fresh three-snapshot window at time 0 yields
confidence 3/20, and the same window observed at time 40000 yields half
of that. -/
theorem C9_confidence_spec_witness :
    calculateForecastConfidence [confSnap (-4000), confSnap (-2000), confSnap 0] 0 =
      3 / 20 ∧
    calculateForecastConfidence [confSnap (-4000), confSnap (-2000), confSnap 0] 40000 =
      (1 / 2) * (3 / 20) := by
  have h1 := C9_confidence_spec.1 [confSnap (-4000), confSnap (-2000), confSnap 0]
    0 (confSnap 0) (by decide) rfl
  have h2 := C9_confidence_spec.2.2.2 [confSnap (-4000), confSnap (-2000), confSnap 0]
    0 40000 (confSnap 0) (by decide) rfl (by norm_num [confSnap]) (by norm_num [confSnap])
  rw [h1]
  constructor
  · norm_num [confSnap]
  · rw [h2, h1]
    norm_num [confSnap]

lemma findSome?_eq_some_elim {α β : Type} {f : α → Option β} {l : List α}
    {b : β} (h : List.findSome? f l = some b) : ∃ a ∈ l, f a = some b := by
  induction l with
  | nil => simp [List.findSome?] at h
  | cons a as ih =>
    rw [List.findSome?_cons] at h
    cases hfa : f a with
    | some c =>
      simp only [hfa] at h
      exact ⟨a, List.mem_cons_self a as, by rw [hfa]; exact h⟩
    | none =>
      simp only [hfa] at h
      obtain ⟨x, hx, hfx⟩ := ih h
      exact ⟨x, List.mem_cons_of_mem a hx, hfx⟩

lemma mod_surj (N start j : ℕ) (hN : 0 < N) (hj : j < N) :
    ∃ i, i < N ∧ (start + i) % N = j := by
  have hr : start % N < N := Nat.mod_lt _ hN
  refine ⟨(N + j - start % N) % N, Nat.mod_lt _ hN, ?_⟩
  rw [← Nat.mod_add_mod, Nat.add_mod_mod,
    show start % N + (N + j - start % N) = N + j from by omega,
    Nat.add_mod_left, Nat.mod_eq_of_lt hj]

lemma rrScan_eq_none_iff (servers : List Server) (start : ℕ) (p : Server → Bool) :
    rrScan servers start p = none ↔ ∀ s ∈ servers, p s = false := by
  unfold rrScan
  rw [List.findSome?_eq_none_iff]
  constructor
  · intro h s hs
    obtain ⟨j, hj, hget⟩ := List.getElem_of_mem hs
    obtain ⟨i, hi, hmod⟩ := mod_surj servers.length start j (by omega) hj
    have hbody := h i (List.mem_range.2 hi)
    have hget2 : servers[j]? = some s := by
      rw [List.getElem?_eq_getElem hj, hget]
    by_cases hp : p s = true
    · exfalso
      simp only [hmod, hget2, hp, if_true] at hbody
      exact Option.some_ne_none _ hbody
    · cases hps : p s with
      | false => rfl
      | true => exact absurd hps hp
  · intro h i _
    cases hget : servers[(start + i) % servers.length]? with
    | none => simp [hget]
    | some s => simp [hget, h s (List.getElem?_mem hget)]

lemma rrScan_eq_some_elim (servers : List Server) (start : ℕ) (p : Server → Bool)
    (idx : ℕ) (s : Server) (h : rrScan servers start p = some (idx, s)) :
    p s = true ∧ servers[idx]? = some s := by
  unfold rrScan at h
  obtain ⟨i, _, hbody⟩ := findSome?_eq_some_elim h
  dsimp only at hbody
  cases hget : servers[(start + i) % servers.length]? with
  | none =>
    simp only [hget] at hbody
    simp at hbody
  | some s2 =>
    by_cases hp : p s2 = true
    · simp only [hget, hp, if_true, Option.some.injEq, Prod.mk.injEq] at hbody
      obtain ⟨hidx, hs⟩ := hbody
      subst hs
      exact ⟨hp, by rw [← hidx]; exact hget⟩
    · simp only [hget, Bool.not_eq_true] at hp
      simp only [hget, hp, Bool.false_eq_true, if_false] at hbody
      simp at hbody

lemma bool_guard_iff (s : Server) (taskSize th now : ℤ) :
    ((IsAvailable s && canHandleCheck s taskSize &&
        !IsMaGCPredicted s th now) = true) ↔
      (IsAvailable s = true ∧ canHandleCheck s taskSize = true ∧
        IsMaGCPredicted s th now = false) := by
  simp [Bool.and_eq_true, Bool.not_eq_true', and_assoc]

/-- C1: with TRINI present and active and a GC-aware policy, whenever some
worker is available, can accept the task, and has no valid imminent
forecast, the GC-RR ring scan selects a worker whose forecast guard is
false (so GetServerGCRoundRobin returns it without taking the escape
path); and the escape path (ring scan exhausted) is taken exactly when no
such GC-safe admissible worker exists. -/
theorem C1_gcRoundRobin_skips_predicted (lb : LoadBalancer) (taskSize now : ℤ)
    (trini : TRINI) (htr : lb.TRINI = some trini) (hact : trini.IsActive = true)
    (hgc : lb.CurrentPolicy.GCAware = true) :
    ((∃ s ∈ lb.Servers, IsAvailable s = true ∧ canHandleCheck s taskSize = true ∧
        IsMaGCPredicted s (getCurrentMaGCThreshold lb) now = false) →
      ∃ idx s, rrScan lb.Servers lb.currentServerIndex (fun server =>
          IsAvailable server && canHandleCheck server taskSize &&
            !IsMaGCPredicted server (getCurrentMaGCThreshold lb) now) =
          some (idx, s) ∧
        IsMaGCPredicted s (getCurrentMaGCThreshold lb) now = false ∧
        (GetServerGCRoundRobin lb taskSize now).1 = some s) ∧
    (rrScan lb.Servers lb.currentServerIndex (fun server =>
        IsAvailable server && canHandleCheck server taskSize &&
          !IsMaGCPredicted server (getCurrentMaGCThreshold lb) now) = none ↔
      ∀ s ∈ lb.Servers, ¬(IsAvailable s = true ∧ canHandleCheck s taskSize = true ∧
        IsMaGCPredicted s (getCurrentMaGCThreshold lb) now = false)) := by
  have h2 : rrScan lb.Servers lb.currentServerIndex (fun server =>
      IsAvailable server && canHandleCheck server taskSize &&
        !IsMaGCPredicted server (getCurrentMaGCThreshold lb) now) = none ↔
      ∀ s ∈ lb.Servers, ¬(IsAvailable s = true ∧ canHandleCheck s taskSize = true ∧
        IsMaGCPredicted s (getCurrentMaGCThreshold lb) now = false) := by
    rw [rrScan_eq_none_iff]
    constructor
    · intro h s hs
      rw [← bool_guard_iff s taskSize (getCurrentMaGCThreshold lb) now]
      simp [h s hs]
    · intro h s hs
      have hns := h s hs
      rw [← bool_guard_iff s taskSize (getCurrentMaGCThreshold lb) now] at hns
      simpa using hns
  refine ⟨?_, h2⟩
  rintro ⟨s0, hs0, hcond⟩
  have hne : rrScan lb.Servers lb.currentServerIndex (fun server =>
      IsAvailable server && canHandleCheck server taskSize &&
        !IsMaGCPredicted server (getCurrentMaGCThreshold lb) now) ≠ none := by
    intro hnone
    exact (h2.1 hnone s0 hs0) hcond
  obtain ⟨⟨idx, s⟩, hsome⟩ := Option.ne_none_iff_exists.1 hne
  have hsome2 := hsome.symm
  obtain ⟨hp, _⟩ := rrScan_eq_some_elim _ _ _ _ _ hsome2
  have hpred : IsMaGCPredicted s (getCurrentMaGCThreshold lb) now = false :=
    ((bool_guard_iff s taskSize (getCurrentMaGCThreshold lb) now).1 hp).2.2
  refine ⟨idx, s, hsome2, hpred, ?_⟩
  unfold GetServerGCRoundRobin
  simp only [htr, hact, Bool.not_true, Bool.false_eq_true, if_false, hsome2]

/-- A worker whose stored forecast predicts a MaGC 1000 ms from time 0. -/
def sPred : Server :=
  { ID := 1, TaskStorage := [], isCollectingGCTasks := false
    usedMemory := 0, memLimit := 100, gcPercentage := 9 / 10
    GCHistory := [], CurrentFamily := some mediumMaGCFamily
    LastMaGCForecast := some
      { PredictedTime := 1000, Confidence := 1, YoungGenThreshold := 10
        TimeToMaGC := 1000, ForecastCreatedAt := 0 }
    YoungGenUsed := 0, OldGenUsed := 0, YoungGenMax := 50, OldGenMax := 50
    GCCount := 0, LastMaGCTime := 0, MaGCDuration := 0, Weights := 1 }

/-- A worker with no stored forecast. -/
def sSafe : Server :=
  { ID := 2, TaskStorage := [], isCollectingGCTasks := false
    usedMemory := 0, memLimit := 100, gcPercentage := 9 / 10
    GCHistory := [], CurrentFamily := some mediumMaGCFamily
    LastMaGCForecast := none
    YoungGenUsed := 0, OldGenUsed := 0, YoungGenMax := 50, OldGenMax := 50
    GCCount := 0, LastMaGCTime := 0, MaGCDuration := 0, Weights := 1 }

/-- The TRINI instance used by the concrete load balancer states. -/
def trW : TRINI :=
  { ProgramFamilies := allFamilies, DefaultFamily := defaultFamily
    IsActive := true }

/-- A two-worker GC-aware load balancer whose first worker predicts an
imminent MaGC. -/
def lbW : LoadBalancer :=
  { Servers := [sPred, sSafe], currentServerIndex := 0
    TRINI := some trW, CurrentPolicy := mediumMaGCFamily.Policy }

/-- Witness for C1 at lbW: a GC-safe worker exists, so the selection
returns a server. -/
theorem C1_gcRoundRobin_skips_predicted_witness :
    (GetServerGCRoundRobin lbW 3 0).1.isSome = true := by
  obtain ⟨idx, s, h1, h2, h3⟩ :=
    (C1_gcRoundRobin_skips_predicted lbW 3 0 trW rfl rfl rfl).1
      ⟨sSafe, List.mem_cons_of_mem _ (List.mem_cons_self _ _), rfl, rfl, rfl⟩
  rw [h3]
  rfl

lemma findSome?_range_first {β : Type} (f : ℕ → Option β) (N : ℕ) (hN : 0 < N)
    (b : β) (h : f 0 = some b) : (List.range N).findSome? f = some b := by
  obtain ⟨m, hm⟩ : ∃ m, N = m + 1 := ⟨N - 1, by omega⟩
  subst hm
  rw [List.range_succ_eq_map, List.findSome?_cons, h]

lemma rrScan_all_pass (servers : List Server) (c : ℕ) (p : Server → Bool)
    (hN : 0 < servers.length) (hall : ∀ s ∈ servers, p s = true) :
    ∃ s, servers[c % servers.length]? = some s ∧
      rrScan servers c p = some (c % servers.length, s) := by
  have hlt : c % servers.length < servers.length := Nat.mod_lt _ hN
  refine ⟨servers[c % servers.length], List.getElem?_eq_getElem hlt, ?_⟩
  unfold rrScan
  apply findSome?_range_first _ _ (by omega)
  have hp : p servers[c % servers.length] = true :=
    hall _ (List.getElem_mem hlt)
  simp only [Nat.add_zero, List.getElem?_eq_getElem hlt, hp, if_true]

lemma getServerForTaskIdx_all_pass (lb : LoadBalancer) (taskSize : ℤ)
    (hN : 0 < lb.Servers.length)
    (hall : ∀ s ∈ lb.Servers, (IsAvailable s && canHandleCheck s taskSize) = true) :
    ∃ s, (GetServerForTaskIdx lb taskSize).1 =
        some (lb.currentServerIndex % lb.Servers.length, s) ∧
      (GetServerForTaskIdx lb taskSize).2 =
        { lb with currentServerIndex :=
            (lb.currentServerIndex % lb.Servers.length + 1) % lb.Servers.length } := by
  obtain ⟨s, _, hscan⟩ :=
    rrScan_all_pass lb.Servers lb.currentServerIndex _ hN hall
  refine ⟨s, ?_, ?_⟩ <;> unfold GetServerForTaskIdx <;> rw [hscan]

lemma dispatchSeq_all_pass (servers : List Server) (taskSize : ℤ)
    (hN : 0 < servers.length)
    (hall : ∀ s ∈ servers, (IsAvailable s && canHandleCheck s taskSize) = true) :
    ∀ (m : ℕ) (lb : LoadBalancer), lb.Servers = servers →
      dispatchSeq taskSize lb m =
        (List.range m).map (fun j => (lb.currentServerIndex + j) % servers.length) := by
  intro m
  induction m with
  | zero =>
    intro lb _
    simp [dispatchSeq]
  | succ m ih =>
    intro lb hlb
    have hall2 : ∀ s ∈ lb.Servers, (IsAvailable s && canHandleCheck s taskSize) = true := by
      rw [hlb]; exact hall
    obtain ⟨s, _, hscan⟩ :=
      rrScan_all_pass lb.Servers lb.currentServerIndex _ (by rw [hlb]; exact hN) hall2
    have hstep : GetServerForTaskIdx lb taskSize =
        (some (lb.currentServerIndex % lb.Servers.length, s),
          { lb with currentServerIndex :=
              (lb.currentServerIndex % lb.Servers.length + 1) % lb.Servers.length }) := by
      unfold GetServerForTaskIdx
      rw [hscan]
    rw [dispatchSeq, hstep]
    dsimp only
    rw [ih { lb with currentServerIndex :=
        (lb.currentServerIndex % lb.Servers.length + 1) % lb.Servers.length } (by simpa using hlb)]
    rw [List.range_succ_eq_map, List.map_cons, List.map_map]
    rw [hlb]
    refine congrArg₂ _ (by rw [Nat.add_zero]) ?_
    apply List.map_congr_left
    intro j _
    show ((lb.currentServerIndex % servers.length + 1) % servers.length + j) %
        servers.length = (lb.currentServerIndex + Nat.succ j) % servers.length
    rw [Nat.mod_add_mod, Nat.add_assoc, Nat.mod_add_mod, Nat.succ_eq_add_one,
      Nat.add_comm 1 j]

lemma count_cycle (N c w : ℕ) (hN : 0 < N) (hw : w < N) :
    ((List.range N).map (fun j => (c + j) % N)).count w = 1 := by
  have hrot : (List.range N).map (fun j => (c + j) % N) =
      (List.range N).rotate (c % N) := by
    apply List.ext_get
    · simp [List.length_rotate]
    · intro n h1 h2
      rw [List.get_rotate]
      simp only [List.get_eq_getElem, List.getElem_map, List.getElem_range,
        List.length_range]
      rw [Nat.add_mod_mod, Nat.add_comm]
  rw [hrot, (List.rotate_perm _ _).count_eq]
  exact List.count_eq_one_of_mem (List.nodup_range N) (List.mem_range.2 hw)

lemma count_cycles (N c w k : ℕ) (hN : 0 < N) (hw : w < N) :
    ((List.range (k * N)).map (fun j => (c + j) % N)).count w = k := by
  induction k with
  | zero => simp
  | succ k ih =>
    rw [show (k + 1) * N = k * N + N from by ring, List.range_add,
      List.map_append, List.count_append, ih, List.map_map]
    have hcongr : ∀ j ∈ List.range N,
        ((fun j => (c + j) % N) ∘ fun x => k * N + x) j =
          (fun j => (c + j) % N) j := by
      intro j _
      show (c + (k * N + j)) % N = (c + j) % N
      rw [show c + (k * N + j) = c + j + k * N from by ring,
        Nat.add_mul_mod_self_right]
    rw [List.map_congr_left hcongr, count_cycle N c w hN hw]

/-- C8: with all workers available and able to accept the task, the plain
round-robin dispatcher selects workers in cyclic order starting from the
cursor, so over k*N consecutive dispatches each of the N positions is
selected exactly k times, each selection advancing the cursor to
(selectedIndex + 1) mod N; and GetServerForTask returns none only when no
worker passes both the availability and the capacity check. -/
theorem C8_roundRobin_fairness (lb : LoadBalancer) (taskSize : ℤ) (k w : ℕ)
    (hN : 0 < lb.Servers.length)
    (hall : ∀ s ∈ lb.Servers, IsAvailable s = true ∧ canHandleCheck s taskSize = true)
    (hw : w < lb.Servers.length) :
    dispatchSeq taskSize lb (k * lb.Servers.length) =
      (List.range (k * lb.Servers.length)).map
        (fun j => (lb.currentServerIndex + j) % lb.Servers.length) ∧
    (dispatchSeq taskSize lb (k * lb.Servers.length)).count w = k ∧
    (∃ s, (GetServerForTaskIdx lb taskSize).1 =
        some (lb.currentServerIndex % lb.Servers.length, s) ∧
      (GetServerForTaskIdx lb taskSize).2.currentServerIndex =
        (lb.currentServerIndex % lb.Servers.length + 1) % lb.Servers.length) ∧
    (∀ lb2 : LoadBalancer, (GetServerForTask lb2 taskSize).1 = none →
      ∀ s ∈ lb2.Servers, ¬(IsAvailable s = true ∧ canHandleCheck s taskSize = true)) := by
  have hallb : ∀ s ∈ lb.Servers, (IsAvailable s && canHandleCheck s taskSize) = true := by
    intro s hs
    rw [Bool.and_eq_true]
    exact ⟨(hall s hs).1, (hall s hs).2⟩
  have hformula := dispatchSeq_all_pass lb.Servers taskSize hN hallb
    (k * lb.Servers.length) lb rfl
  refine ⟨hformula, ?_, ?_, ?_⟩
  · rw [hformula]
    exact count_cycles lb.Servers.length lb.currentServerIndex w k hN hw
  · obtain ⟨s, h1, h2⟩ := getServerForTaskIdx_all_pass lb taskSize hN hallb
    exact ⟨s, h1, by rw [h2]⟩
  · intro lb2 hnone s hs hcond
    have hscan : rrScan lb2.Servers lb2.currentServerIndex
        (fun server => IsAvailable server && canHandleCheck server taskSize) = none := by
      unfold GetServerForTask GetServerForTaskIdx at hnone
      cases hcase : rrScan lb2.Servers lb2.currentServerIndex
          (fun server => IsAvailable server && canHandleCheck server taskSize) with
      | none => rfl
      | some pair =>
        rw [hcase] at hnone
        simp at hnone
    have := (rrScan_eq_none_iff _ _ _).1 hscan s hs
    simp [hcond.1, hcond.2] at this

/-- Two idle workers used by the fairness witness. -/
def sIdleA : Server :=
  { ID := 1, TaskStorage := [], isCollectingGCTasks := false
    usedMemory := 0, memLimit := 100, gcPercentage := 9 / 10
    GCHistory := [], CurrentFamily := none, LastMaGCForecast := none
    YoungGenUsed := 0, OldGenUsed := 0, YoungGenMax := 50, OldGenMax := 50
    GCCount := 0, LastMaGCTime := 0, MaGCDuration := 0, Weights := 1 }

/-- Second idle worker used by the fairness witness. -/
def sIdleB : Server :=
  { sIdleA with ID := 2 }

/-- A non-GC-aware load balancer over two idle workers. -/
def lbF : LoadBalancer :=
  { Servers := [sIdleA, sIdleB], currentServerIndex := 0
    TRINI := none, CurrentPolicy := defaultFamily.Policy }

/-- Witness for C8 at lbF with k = 2: four dispatches select positions 0
and 1 twice each. -/
theorem C8_roundRobin_fairness_witness :
    (dispatchSeq 1 lbF (2 * 2)).count 0 = 2 ∧ (dispatchSeq 1 lbF (2 * 2)).count 1 = 2 := by
  have hall : ∀ s ∈ lbF.Servers, IsAvailable s = true ∧ canHandleCheck s 1 = true := by
    intro s hs
    simp only [lbF, List.mem_cons, List.not_mem_nil, or_false] at hs
    rcases hs with h | h <;> subst h <;> exact ⟨rfl, rfl⟩
  have h0 := (C8_roundRobin_fairness lbF 1 2 0 (by decide) hall (by decide)).2.1
  have h1 := (C8_roundRobin_fairness lbF 1 2 1 (by decide) hall (by decide)).2.1
  exact ⟨h0, h1⟩

/-- A snapshot recording a completed MaGC of 1000 ms. -/
def c3snap (t : ℤ) : GCSnapshot :=
  { Timestamp := t, YoungGenUsed := 10, OldGenUsed := 5, YoungGenMax := 50
    OldGenMax := 50, TotalMemUsed := 15, TotalMemMax := 100, GCCount := 1
    LastMaGCTime := t, MaGCDuration := 1000, IsCollectingGC := false }

/-- Six snapshots with recorded MaGC duration 1000 ms each: at least five
positive samples whose mean, 1000 ms, lies strictly between 500 and
2000 ms, so the spec expects the medium family. -/
def c3history : List GCSnapshot :=
  [c3snap 0, c3snap 2000, c3snap 4000, c3snap 6000, c3snap 8000, c3snap 10000]

/-- A worker holding c3history and currently assigned the default family. -/
def c3server : Server :=
  { ID := 1, TaskStorage := [], isCollectingGCTasks := false
    usedMemory := 15, memLimit := 100, gcPercentage := 9 / 10
    GCHistory := c3history, CurrentFamily := some defaultFamily
    LastMaGCForecast := none
    YoungGenUsed := 10, OldGenUsed := 5, YoungGenMax := 50, OldGenMax := 50
    GCCount := 6, LastMaGCTime := 10000, MaGCDuration := 1000, Weights := 1 }

/-- C3 failing input: although c3server has six positive recent MaGC
durations with mean 1000 ms (strictly between 500 and 2000 ms) and the
medium family matches them (as findBestFamily confirms), one run of the
classification leaves the worker in the default family, because
evaluateCurrentFamily holds for the default family on every history (its
criteria carry no duration bounds), so findBestFamily is never
consulted. -/
theorem C3_default_family_never_upgraded :
    5 ≤ (recentMaGCDurations c3history).length ∧
    500 < (recentMaGCDurations c3history).sum /
        ((recentMaGCDurations c3history).length : ℤ) ∧
    (recentMaGCDurations c3history).sum /
        ((recentMaGCDurations c3history).length : ℤ) < 2000 ∧
    (findBestFamily c3history allFamilies defaultFamily).ID = "medium-magc" ∧
    evaluateCurrentFamily c3history (some defaultFamily) = true ∧
    (analyzeAndAdaptFamily c3server allFamilies defaultFamily).CurrentFamily =
      some defaultFamily := by
  decide

/-- Sum of the first coordinates of a list of sample points. -/
def lsSumX (pts : List (ℚ × ℚ)) : ℚ := (pts.map (fun p => p.1)).sum

/-- Sum of the second coordinates. -/
def lsSumY (pts : List (ℚ × ℚ)) : ℚ := (pts.map (fun p => p.2)).sum

/-- Sum of the coordinate products. -/
def lsSumXY (pts : List (ℚ × ℚ)) : ℚ := (pts.map (fun p => p.1 * p.2)).sum

/-- Sum of the squared first coordinates. -/
def lsSumX2 (pts : List (ℚ × ℚ)) : ℚ := (pts.map (fun p => p.1 * p.1)).sum

/-- The normal-equation denominator of the least-squares line fit. -/
def lsDen (pts : List (ℚ × ℚ)) : ℚ :=
  (pts.length : ℚ) * lsSumX2 pts - lsSumX pts * lsSumX pts

/-- The least-squares slope. -/
def lsA (pts : List (ℚ × ℚ)) : ℚ :=
  ((pts.length : ℚ) * lsSumXY pts - lsSumX pts * lsSumY pts) / lsDen pts

/-- The least-squares intercept. -/
def lsB (pts : List (ℚ × ℚ)) : ℚ :=
  (lsSumY pts - lsA pts * lsSumX pts) / (pts.length : ℚ)

/-- The stage-1 sample points: YoungGenUsed against OldGenUsed. -/
def oldYoungPts (W : List GCSnapshot) : List (ℚ × ℚ) :=
  W.map (fun sn => ((sn.OldGenUsed : ℚ), (sn.YoungGenUsed : ℚ)))

/-- The stage-2 sample points: millisecond offset from the first snapshot
against YoungGenUsed. -/
def youngTimePts (W : List GCSnapshot) : List (ℚ × ℚ) :=
  match W with
  | [] => []
  | base :: _ =>
    W.map (fun sn =>
      ((sn.YoungGenUsed : ℚ), ((sn.Timestamp - base.Timestamp : ℤ) : ℚ)))

/-- Modelled from the spec (claim C4): the stage-1 output
max(0, a * 0.9 * OldMax + b), truncated to int as the Go conversion
does. -/
def specYoungGenThreshold (OldGenMax : ℤ) (W : List GCSnapshot) : ℤ :=
  truncQ (max 0 (lsA (oldYoungPts W) * ((OldGenMax : ℚ) * (9 / 10)) +
    lsB (oldYoungPts W)))

/-- Modelled from the spec (claim C4): the stage-2 output
max(0, tPredictedMs - (now - t0)ms), truncated to int64. -/
def specTimeToMaGC (W : List GCSnapshot) (youngThr : ℤ) (now : ℤ) : ℤ :=
  match W with
  | [] => 0
  | base :: _ =>
    max 0 (truncQ (lsA (youngTimePts W) * (youngThr : ℚ) + lsB (youngTimePts W) -
      ((now - base.Timestamp : ℤ) : ℚ)))

lemma ite_neg_eq_max (v : ℚ) : (if v < 0 then 0 else v) = max 0 v := by
  rcases le_or_lt 0 v with h | h
  · rw [if_neg (not_lt.2 h), max_eq_right h]
  · rw [if_pos h, max_eq_left h.le]

lemma ite_neg_eq_max_int (v : ℤ) : (if v < 0 then 0 else v) = max 0 v := by
  rcases le_or_lt 0 v with h | h
  · rw [if_neg (not_lt.2 h), max_eq_right h]
  · rw [if_pos h, max_eq_left h.le]

lemma truncQ_nonpos {q : ℚ} (h : q < 0) : truncQ q ≤ 0 := by
  unfold truncQ
  rw [if_pos h]
  have : (0 : ℤ) ≤ ⌊-q⌋ := Int.floor_nonneg.2 (by linarith)
  omega

lemma max_truncQ_comm (q : ℚ) : max 0 (truncQ q) = truncQ (max 0 q) := by
  rcases le_or_lt 0 q with h | h
  · rw [max_eq_right h, max_eq_right (truncQ_nonneg h)]
  · rw [max_eq_left h.le]
    rw [max_eq_left (truncQ_nonpos h)]
    unfold truncQ
    norm_num

lemma forecastYoungGenThreshold_eq_spec (OldGenMax : ℤ) (W : List GCSnapshot)
    (h3 : 3 ≤ W.length)
    (hden : 1 / 10000000000 ≤ |lsDen (oldYoungPts W)|) :
    forecastYoungGenThreshold OldGenMax W = specYoungGenThreshold OldGenMax W := by
  have hsx : (W.map (fun sn => (sn.OldGenUsed : ℚ))).sum = lsSumX (oldYoungPts W) := by
    simp only [lsSumX, oldYoungPts, List.map_map]
    rfl
  have hsy : (W.map (fun sn => (sn.YoungGenUsed : ℚ))).sum = lsSumY (oldYoungPts W) := by
    simp only [lsSumY, oldYoungPts, List.map_map]
    rfl
  have hsxy : (W.map (fun sn => (sn.OldGenUsed : ℚ) * (sn.YoungGenUsed : ℚ))).sum =
      lsSumXY (oldYoungPts W) := by
    simp only [lsSumXY, oldYoungPts, List.map_map]
    rfl
  have hsx2 : (W.map (fun sn => (sn.OldGenUsed : ℚ) * (sn.OldGenUsed : ℚ))).sum =
      lsSumX2 (oldYoungPts W) := by
    simp only [lsSumX2, oldYoungPts, List.map_map]
    rfl
  have hlen : ((W.length : ℕ) : ℚ) = ((oldYoungPts W).length : ℚ) := by
    simp [oldYoungPts]
  unfold forecastYoungGenThreshold
  rw [if_neg (by omega)]
  dsimp only
  rw [hsx, hsy, hsxy, hsx2, hlen]
  rw [show (((oldYoungPts W).length : ℚ) * lsSumX2 (oldYoungPts W) -
      lsSumX (oldYoungPts W) * lsSumX (oldYoungPts W)) = lsDen (oldYoungPts W)
    from rfl]
  rw [if_neg (not_lt.2 hden)]
  rw [ite_neg_eq_max]
  rfl

lemma forecastTimeToMaGC_eq_spec (W : List GCSnapshot) (youngThr now : ℤ)
    (h3 : 3 ≤ W.length)
    (hden : 1 / 10000000000 ≤ |lsDen (youngTimePts W)|) :
    forecastTimeToMaGC W youngThr now = specTimeToMaGC W youngThr now := by
  match W, h3 with
  | base :: rest, h3 =>
    have hpts : youngTimePts (base :: rest) =
        (base :: rest).map (fun sn =>
          ((sn.YoungGenUsed : ℚ), ((sn.Timestamp - base.Timestamp : ℤ) : ℚ))) := rfl
    have hsx : ((base :: rest).map (fun sn => (sn.YoungGenUsed : ℚ))).sum =
        lsSumX (youngTimePts (base :: rest)) := by
      simp only [lsSumX, hpts, List.map_map]
      rfl
    have hsy : ((base :: rest).map (fun sn =>
        ((sn.Timestamp - base.Timestamp : ℤ) : ℚ))).sum =
        lsSumY (youngTimePts (base :: rest)) := by
      simp only [lsSumY, hpts, List.map_map]
      rfl
    have hsxy : ((base :: rest).map (fun sn =>
        (sn.YoungGenUsed : ℚ) * ((sn.Timestamp - base.Timestamp : ℤ) : ℚ))).sum =
        lsSumXY (youngTimePts (base :: rest)) := by
      simp only [lsSumXY, hpts, List.map_map]
      rfl
    have hsx2 : ((base :: rest).map (fun sn =>
        (sn.YoungGenUsed : ℚ) * (sn.YoungGenUsed : ℚ))).sum =
        lsSumX2 (youngTimePts (base :: rest)) := by
      simp only [lsSumX2, hpts, List.map_map]
      rfl
    have hlen : (((base :: rest).length : ℕ) : ℚ) =
        ((youngTimePts (base :: rest)).length : ℚ) := by
      rw [hpts]
      simp
    simp only [forecastTimeToMaGC]
    rw [if_neg (by simp at h3 ⊢; omega)]
    rw [hsx, hsy, hsxy, hsx2, hlen]
    rw [show (((youngTimePts (base :: rest)).length : ℚ) *
        lsSumX2 (youngTimePts (base :: rest)) -
        lsSumX (youngTimePts (base :: rest)) * lsSumX (youngTimePts (base :: rest))) =
        lsDen (youngTimePts (base :: rest)) from rfl]
    rw [if_neg (not_lt.2 hden)]
    rw [ite_neg_eq_max_int]
    rfl

/-- C4 (amended): when the window covers the whole history (the family
window is at least the history length), the history has at least five
snapshots, both normal-equation denominators are at least 1e-10 in
absolut value, and both the truncated clamped young-generation threshold
and the truncated clamped time-to-MaGC are strictly positive, the MaGA
forecaster produces a forecast carrying exactly those two values, with
PredictedTime = now + TimeToMaGC and CreatedAt = now.  (The counterexample
shows no forecast is produced when a clamped value is zero.) -/
theorem C4_forecast_production (s : Server) (history : List GCSnapshot)
    (now : ℤ) (family : ProgramFamily) (hfam : s.CurrentFamily = some family)
    (h5 : 5 ≤ history.length)
    (hwin : history.length ≤ family.ForecastWindowSize)
    (hden1 : 1 / 10000000000 ≤ |lsDen (oldYoungPts history)|)
    (hden2 : 1 / 10000000000 ≤ |lsDen (youngTimePts history)|)
    (hthr : 0 < specYoungGenThreshold s.OldGenMax history)
    (httm : 0 < specTimeToMaGC history
      (specYoungGenThreshold s.OldGenMax history) now) :
    generateMaGCForecast s history now = some
      { PredictedTime := now + specTimeToMaGC history
          (specYoungGenThreshold s.OldGenMax history) now
        Confidence := calculateForecastConfidence history now
        YoungGenThreshold := specYoungGenThreshold s.OldGenMax history
        TimeToMaGC := specTimeToMaGC history
          (specYoungGenThreshold s.OldGenMax history) now
        ForecastCreatedAt := now } := by
  unfold generateMaGCForecast
  rw [if_neg (by omega), hfam]
  dsimp only
  rw [show (if family.ForecastWindowSize > history.length then history.length
      else family.ForecastWindowSize) = history.length from by split_ifs <;> omega]
  rw [Nat.sub_self, List.drop_zero]
  rw [forecastYoungGenThreshold_eq_spec s.OldGenMax history (by omega) hden1]
  rw [if_neg (by omega)]
  rw [forecastTimeToMaGC_eq_spec history _ now (by omega) hden2]
  rw [if_neg (by omega)]

/-- A snapshot family whose young generation shrinks as the old
generation grows: the stage-1 regression has slope -20. -/
def c4bad (i : ℤ) : GCSnapshot :=
  { Timestamp := 1000 * i, YoungGenUsed := 100 - 20 * i, OldGenUsed := i
    YoungGenMax := 1000, OldGenMax := 100, TotalMemUsed := 100
    TotalMemMax := 200, GCCount := 0, LastMaGCTime := 0, MaGCDuration := 0
    IsCollectingGC := false }

/-- Five such snapshots: both denominators are far from zero, yet the
clamped young-generation threshold is zero. -/
def c4badHist : List GCSnapshot :=
  [c4bad 0, c4bad 1, c4bad 2, c4bad 3, c4bad 4]

/-- A worker with the bad history and the medium family (window 25). -/
def c4badServer : Server :=
  { ID := 1, TaskStorage := [], isCollectingGCTasks := false
    usedMemory := 100, memLimit := 200, gcPercentage := 9 / 10
    GCHistory := c4badHist, CurrentFamily := some mediumMaGCFamily
    LastMaGCForecast := none
    YoungGenUsed := 20, OldGenUsed := 4, YoungGenMax := 1000, OldGenMax := 100
    GCCount := 0, LastMaGCTime := 0, MaGCDuration := 0, Weights := 1 }

/-- Counterexample to C4 as stated: the window has five snapshots and
both normal-equation denominators are at least 1e-10 in absolute value
(they are 50 and 20000), yet no forecast is produced, because the clamped
young-generation threshold comes out zero and generateMaGCForecast
aborts on any nonpositive threshold. -/
theorem C4_counterexample :
    5 ≤ c4badHist.length ∧
    1 / 10000000000 ≤ |lsDen (oldYoungPts c4badHist)| ∧
    1 / 10000000000 ≤ |lsDen (youngTimePts c4badHist)| ∧
    generateMaGCForecast c4badServer c4badHist 5000 = none := by
  refine ⟨by decide, ?_, ?_, ?_⟩
  · norm_num [lsDen, lsSumX2, lsSumX, oldYoungPts, c4badHist, c4bad]
  · norm_num [lsDen, lsSumX2, lsSumX, youngTimePts, c4badHist, c4bad]
  · norm_num [generateMaGCForecast, c4badServer, c4badHist, c4bad,
      mediumMaGCFamily, forecastYoungGenThreshold, truncQ]

/-- A snapshot family with linearly growing generations and timestamps:
young = 10 * old, offset = 100 * young. -/
def c4ok (i : ℤ) : GCSnapshot :=
  { Timestamp := 1000 * i, YoungGenUsed := 10 * i, OldGenUsed := i
    YoungGenMax := 1000, OldGenMax := 100, TotalMemUsed := 11 * i
    TotalMemMax := 200, GCCount := 0, LastMaGCTime := 0, MaGCDuration := 0
    IsCollectingGC := false }

/-- Five well-behaved snapshots. -/
def c4okHist : List GCSnapshot :=
  [c4ok 0, c4ok 1, c4ok 2, c4ok 3, c4ok 4]

/-- A worker with the well-behaved history and the medium family. -/
def c4okServer : Server :=
  { ID := 1, TaskStorage := [], isCollectingGCTasks := false
    usedMemory := 44, memLimit := 200, gcPercentage := 9 / 10
    GCHistory := c4okHist, CurrentFamily := some mediumMaGCFamily
    LastMaGCForecast := none
    YoungGenUsed := 40, OldGenUsed := 4, YoungGenMax := 1000, OldGenMax := 100
    GCCount := 0, LastMaGCTime := 0, MaGCDuration := 0, Weights := 1 }

/-- Witness for the amended C4: at c4okServer with now = 5000 the
forecaster produces threshold 900, time-to-MaGC 85000 ms, predicted time
90000 and confidence 1/4. -/
theorem C4_forecast_production_witness :
    generateMaGCForecast c4okServer c4okHist 5000 = some
      { PredictedTime := 90000, Confidence := 1 / 4, YoungGenThreshold := 900
        TimeToMaGC := 85000, ForecastCreatedAt := 5000 } := by
  have hthr : specYoungGenThreshold c4okServer.OldGenMax c4okHist = 900 := by
    norm_num [specYoungGenThreshold, lsA, lsB, lsDen, lsSumX, lsSumY, lsSumXY,
      lsSumX2, oldYoungPts, c4okHist, c4ok, truncQ, c4okServer]
  have httm : specTimeToMaGC c4okHist 900 5000 = 85000 := by
    norm_num [specTimeToMaGC, lsA, lsB, lsDen, lsSumX, lsSumY, lsSumXY,
      lsSumX2, youngTimePts, c4okHist, c4ok, truncQ]
  have hconf : calculateForecastConfidence c4okHist 5000 = 1 / 4 := by
    norm_num [calculateForecastConfidence, c4okHist, c4ok, List.getLast?]
  have h := C4_forecast_production c4okServer c4okHist 5000 mediumMaGCFamily
    rfl (by decide) (by decide)
    (by norm_num [lsDen, lsSumX2, lsSumX, oldYoungPts, c4okHist, c4ok])
    (by norm_num [lsDen, lsSumX2, lsSumX, youngTimePts, c4okHist, c4ok])
    (by rw [hthr]; norm_num)
    (by rw [hthr, httm]; norm_num)
  rw [h, hthr, httm, hconf]
  norm_num

end GCLB
